import Mathlib

/-!
Verification development for the dnd.js Source/Target drag-and-drop wrapper.

The embedding follows the current revision of the module
(`src/unnamed/part_000`); the two earlier revisions concatenated in
`src/js/dnd.js` are modelled separately where a claim cites them.
Element handles, the data-transfer carrier, and the platform event loop are
the external collaborators of the module; they are modelled just deeply
enough to run the handlers the module attaches.
-/

namespace Dnd

/-- UI element handles (opaque to the module; only identity matters). -/
abbrev Elem := Nat

/-- JavaScript values, as far as the input-shape analysis of
`createEffectString` distinguishes them: the function branches on
falsiness, on `typeof effects === "string"`, and otherwise throws,
so we carry the primitive shapes plus arrays of strings. -/
inductive JSVal where
  | undef
  | jnull
  | jbool (b : Bool)
  | jnum (n : Int)
  | jstr (s : String)
  | jarr (elts : List String)
deriving DecidableEq, Repr

/-- JS truthiness for the shapes in `JSVal` (`NaN` is not representable with
`Int` and is never relevant to the claims). Arrays are always truthy. -/
def JSVal.truthy : JSVal → Bool
  | .undef => false
  | .jnull => false
  | .jbool b => b
  | .jnum n => n != 0
  | .jstr s => s ≠ ""
  | .jarr _ => true

/-- The exceptions the module can raise.

`invalidConfiguration` is the `new Error` with message
`cannot create effect string` thrown by `createEffectString`
(the only validated failure in the design).

`typeError` covers the host TypeErrors the code can run into: a property
write on a string primitive under the strict-mode directive of the module,
a member access on `null`, and `camelCase` reading `charAt` of an
`undefined` second argument. -/
inductive JSErr where
  | invalidConfiguration
  | typeError
deriving DecidableEq, Repr

instance {ε α : Type} [DecidableEq ε] [DecidableEq α] : DecidableEq (Except ε α) := fun a b =>
  match a, b with
  | .ok x, .ok y =>
      if h : x = y then .isTrue (by rw [h]) else .isFalse (by intro hc; cases hc; exact h rfl)
  | .error x, .error y =>
      if h : x = y then .isTrue (by rw [h]) else .isFalse (by intro hc; cases hc; exact h rfl)
  | .ok _, .error _ => .isFalse (fun hc => Except.noConfusion hc)
  | .error _, .ok _ => .isFalse (fun hc => Except.noConfusion hc)

/-- Lexicographic comparison of character lists by code point, the order
`Array.prototype.sort` uses on strings (for the ASCII effect names the
UTF-16 unit order and the code-point order agree). -/
def charListLe : List Char → List Char → Bool
  | [], _ => true
  | _ :: _, [] => false
  | a :: as, b :: bs =>
      if a.toNat < b.toNat then true
      else if b.toNat < a.toNat then false
      else charListLe as bs

/-- String comparison by code points, as `Array.prototype.sort` compares. -/
def jsStrLe (a b : String) : Bool := charListLe a.data b.data

/-- Insert into a sorted list, keeping `jsStrLe` order. -/
def sortInsert (s : String) : List String → List String
  | [] => [s]
  | h :: t => if jsStrLe s h then s :: h :: t else h :: sortInsert s t

/-- `effects.sort()` — default JS sort: lexicographic, ascending. -/
def jsSort : List String → List String
  | [] => []
  | h :: t => sortInsert h (jsSort t)

/-- `camelCase(first, second)` from the source, on string arguments:
`!first` is true for the empty string, otherwise the first character of
`second` is upper-cased and the rest appended. -/
def camelCase (first second : String) : String :=
  if first = "" then second
  else
    first ++ (match second.data with
              | [] => ""
              | c :: cs => String.mk (c.toUpper :: cs))

/-- The `switch (effects.length)` block of `createEffectString`, acting on
the normalized array. The `default` branch executes
`effects.sort(); return effects.reduce(camelCase(effects));` — evaluating
the argument `camelCase(effects)` calls `camelCase` with `second`
undefined, and `second.charAt(0)` throws a TypeError, so the branch never
returns. (From `createEffectString` itself only arrays of length 0 and 1
can reach the switch, because its validation throws on every array input.) -/
def effectSwitch (effects : List String) : Except JSErr String :=
  match effects with
  | [] => Except.ok "none"
  | [e] => Except.ok e
  | [_, _, _] => Except.ok "all"
  | _ => Except.error JSErr.typeError

/-- `createEffectString(effects)` from the source (identical in all three
revisions). Falsy input is replaced by `[]`; a string `s` becomes `[s]`;
every other input — arrays included — hits the `else` branch and throws
`cannot create effect string`. The length switch then runs on the
normalized array. -/
def createEffectString (effects : JSVal) : Except JSErr String :=
  if !effects.truthy then
    effectSwitch []
  else
    match effects with
    | .jstr s => effectSwitch [s]
    | _ => Except.error JSErr.invalidConfiguration

/-- Modelled from the spec: the §4.1 encoding rule on the normalized
collection — 0 elements to `none`, 1 element unchanged, the full set of the
3 distinct effects to `all`, otherwise sort lexicographically and fold with
the camel-case append. Stated only to compare the code against the claimed
normalization rule; `createEffectString` above is the code. -/
def specEncodeRule (effects : List String) : String :=
  if effects.length = 0 then "none"
  else if effects.length = 1 then effects.headD ""
  else if jsSort effects = ["copy", "link", "move"] then "all"
  else
    match jsSort effects with
    | [] => "none"
    | h :: t => t.foldl camelCase h

/-- One element of the `data` option: either the bare-string shorthand or a
`{type, value}` pair. -/
inductive DataItem where
  | str (s : String)
  | pair (type value : String)
deriving DecidableEq, Repr

/-- A custom drag-image element; the source reads optional `x`/`y` fields
off the element handle (`ds.view.x || 0`). -/
structure ViewSpec where
  handle : Elem
  x : Option Int
  y : Option Int
deriving DecidableEq, Repr

/-- The descriptor object `that` built by `createSource` (part_000 revision):
normalized element list, the encoded effect token, the normalized data
array, the optional view, and the three client callbacks. Callbacks are
modelled by presence flags; their invocations are recorded in the trace of
`Call` values a handler emits. -/
structure SourceDesc where
  sources : List Elem
  effects : String
  data : List DataItem
  view : Option ViewSpec
  onStart : Bool
  onCancel : Bool
  onDrop : Bool
deriving DecidableEq, Repr

/-- The descriptor object built by `createTarget` (part_000 revision).
`onEnter` returns a value whose truthiness decides acceptance, so it is
modelled as a Bool-valued function of the entered element; `onLeave` and
`onDrop` only have their invocations observed. The `accepts` option is
stored by the code but never read anywhere in the module, so it is not
modelled. -/
structure TargetDesc where
  targets : List Elem
  effect : String
  onEnter : Option (Elem → Bool)
  onLeave : Bool
  onDrop : Bool

/-- The native data-transfer carrier, one per gesture: allowed-effects and
drop-effect negotiation fields, the optional drag image, and the keyed
data items (`setData`/`getData`/`types`). -/
structure Carrier where
  effectAllowed : String
  dropEffect : Option String
  dragImage : Option (Elem × Int × Int)
  items : List (String × String)
deriving DecidableEq, Repr

/-- The fresh carrier the platform hands to a new gesture: nothing written
yet (the concrete defaults never matter to the claims because `dragstart`
overwrites the allowed-effects field before anything reads it). -/
def Carrier.fresh : Carrier :=
  { effectAllowed := "uninitialized", dropEffect := none, dragImage := none, items := [] }

/-- `transfer.setData(t, v)`: replace the entry of type `t` if present,
otherwise append it (types stay distinct). -/
def Carrier.setData (c : Carrier) (t v : String) : Carrier :=
  { c with items :=
      if c.items.any (fun p => p.1 == t) then
        c.items.map (fun p => if p.1 == t then (t, v) else p)
      else c.items ++ [(t, v)] }

/-- `transfer.getData(t)`: the stored value, or the empty string. -/
def Carrier.getData (c : Carrier) (t : String) : String :=
  ((c.items.find? (fun p => p.1 == t)).map Prod.snd).getD ""

/-- `transfer.types`: the list of available types. -/
def Carrier.types (c : Carrier) : List String := c.items.map Prod.fst

/-- The module-level registry `current = { source: null, element: null }`:
the source descriptor and element of the drag in flight. -/
structure RegState where
  source : Option SourceDesc
  element : Option Elem
deriving DecidableEq, Repr

/-- Both registry fields null — the Idle registry (also the initial value
of `current`). -/
def RegState.empty : RegState := { source := none, element := none }

/-- The state a platform event is processed against: the registry plus the
per-gesture carrier the event exposes as `evt.dataTransfer`. -/
structure DndState where
  reg : RegState
  carrier : Carrier
deriving DecidableEq, Repr

/-- The payload handed to the drop callbacks: the single-type shorthand is
the bare string, otherwise an object keyed by type. -/
inductive Payload where
  | bare (value : String)
  | table (entries : List (String × String))
deriving DecidableEq, Repr

/-- The record `{ fromElement, toElement, data }` built by the drop
listener. -/
structure DropRecord where
  fromElement : Option Elem
  toElement : Elem
  data : Payload
deriving DecidableEq, Repr

/-- One observed client-callback invocation. `start` additionally records
the registry as the handler has it at the moment of the call, and `enter`
records the returned truthiness. -/
inductive Call where
  | start (arg : Elem) (regAtCall : RegState)
  | cancel (arg : Elem)
  | enter (arg : Elem) (result : Bool)
  | leave (arg : Elem)
  | targetDrop (record : DropRecord)
  | sourceDrop (record : DropRecord)
deriving DecidableEq, Repr

/-- What one listener invocation produces: the state it leaves behind, the
callback invocations it made in order, whether it called
`evt.preventDefault()`, and the exception it let escape, if any (the state
reflects the mutations made up to the throw point). -/
structure HOut where
  st : DndState
  calls : List Call
  prevented : Bool
  err : Option JSErr
deriving DecidableEq, Repr

/-- `setSourceProperties(ds, transfer)` from part_000: write the effect
token into `effectAllowed`, request the custom drag image when a view is
present (with `x`/`y` defaulted to 0 by the `|| 0` guards), then write
every data item into the carrier — a bare string goes under type
`text`. -/
def setSourceProperties (ds : SourceDesc) (c : Carrier) : Carrier :=
  let c1 : Carrier := { c with effectAllowed := ds.effects }
  let c2 : Carrier :=
    match ds.view with
    | none => c1
    | some v => { c1 with dragImage := some (v.handle, v.x.getD 0, v.y.getD 0) }
  ds.data.foldl
    (fun acc d =>
      match d with
      | .str s => acc.setData "text" s
      | .pair t v => acc.setData t v)
    c2

/-- The `dragstart` listener attached by `setupSourceEvents` (part_000):
set `current.source` and `current.element`, run `setSourceProperties` on
the fresh per-gesture carrier, then invoke `onStart(evt.target)` if the
client attached one. The registry recorded with the `start` call is the
registry at the moment of the invocation. -/
def dragstartHandler (ds : SourceDesc) (e : Elem) (st : DndState) : HOut :=
  let reg : RegState := { source := some ds, element := some e }
  { st := { reg := reg, carrier := setSourceProperties ds Carrier.fresh },
    calls := if ds.onStart then [Call.start e reg] else [],
    prevented := false,
    err := none }

/-- The `dragend` listener (part_000): only if `current.source !== null`
(no drop cleared it) invoke `onCancel(evt.target)` if present and null out
both registry fields; otherwise do nothing. -/
def dragendHandler (ds : SourceDesc) (e : Elem) (st : DndState) : HOut :=
  if st.reg.source.isSome then
    { st := { st with reg := RegState.empty },
      calls := if ds.onCancel then [Call.cancel e] else [],
      prevented := false,
      err := none }
  else
    { st := st, calls := [], prevented := false, err := none }

/-- `setTargetProperties(dt, data)` from part_000 — its body is empty, so
the carrier comes back untouched. (The earlier revision in src/js/dnd.js
line 248 instead performs `data.dropEffect = dt.effect`; see
`setTargetPropertiesV1`.) -/
def setTargetProperties (dt : TargetDesc) (c : Carrier) : Carrier := c

/-- `setTargetProperties` as the earlier revision src/js/dnd.js lines
247-249 defines it: write the configured effect into the drop-effect
field. Kept for comparison with the empty part_000 body. -/
def setTargetPropertiesV1 (dt : TargetDesc) (c : Carrier) : Carrier :=
  { c with dropEffect := some dt.effect }

/-- The `dragenter` listener (part_000): run `setTargetProperties`, then
`if (!dt.onEnter || dt.onEnter(evt.target)) evt.preventDefault()` — with
no callback the default is always prevented, otherwise exactly when the
callback returns a truthy value. -/
def dragenterHandler (dt : TargetDesc) (e : Elem) (st : DndState) : HOut :=
  let st1 : DndState := { st with carrier := setTargetProperties dt st.carrier }
  match dt.onEnter with
  | none => { st := st1, calls := [], prevented := true, err := none }
  | some f =>
      { st := st1, calls := [Call.enter e (f e)], prevented := f e, err := none }

/-- The `dragleave` listener (part_000): call `onLeave(evt.target)` if
present, nothing else. -/
def dragleaveHandler (dt : TargetDesc) (e : Elem) (st : DndState) : HOut :=
  { st := st,
    calls := if dt.onLeave then [Call.leave e] else [],
    prevented := false,
    err := none }

/-- The `dragover` listener (part_000): unconditionally
`evt.preventDefault()`. -/
def dragoverHandler (dt : TargetDesc) (e : Elem) (st : DndState) : HOut :=
  { st := st, calls := [], prevented := true, err := none }

/-- The payload construction in the drop listener (part_000):

`var payload = (tr.types.length === 1) ? tr.getData(tr.types[0]) : \x7b\x7d;`
followed by a `forEach` over `tr.types` doing
`payload[type] = tr.getData(type)`.

The module opens with the strict-mode directive, so when exactly one type
is available `payload` is a string primitive and the first property write
on it throws a TypeError; otherwise `payload` is the object filled
type-by-type (types are distinct, so the writes never collide). -/
def buildPayload (tr : Carrier) : Except JSErr Payload :=
  if tr.types.length == 1 then Except.error JSErr.typeError
  else Except.ok (Payload.table (tr.types.map (fun t => (t, tr.getData t))))

/-- The `drop` listener (part_000). Everything — payload construction, both
drop callbacks, and the registry clearing — sits inside `if (dt.onDrop)`.
When the body runs: build the payload (which can throw, see
`buildPayload`), call `dt.onDrop(record)`, then read
`current.source.onDrop` (a TypeError if `current.source` is null), call it
with an identical record when present, and finally null out both registry
fields. A throw leaves the state as mutated so far. -/
def dropHandler (dt : TargetDesc) (e : Elem) (st : DndState) : HOut :=
  if dt.onDrop then
    match buildPayload st.carrier with
    | .error err => { st := st, calls := [], prevented := false, err := some err }
    | .ok payload =>
      let record : DropRecord :=
        { fromElement := st.reg.element, toElement := e, data := payload }
      match st.reg.source with
      | none =>
          { st := st, calls := [Call.targetDrop record],
            prevented := false, err := some JSErr.typeError }
      | some src =>
          { st := { st with reg := RegState.empty },
            calls := Call.targetDrop record ::
                     (if src.onDrop then [Call.sourceDrop record] else []),
            prevented := false,
            err := none }
  else
    { st := st, calls := [], prevented := false, err := none }

/-- A platform event delivered to a listener the module registered: the
descriptor whose listener runs and the element the event reports as
`evt.target`. -/
inductive Event where
  | dragstart (ds : SourceDesc) (e : Elem)
  | dragend (ds : SourceDesc) (e : Elem)
  | dragenter (dt : TargetDesc) (e : Elem)
  | dragleave (dt : TargetDesc) (e : Elem)
  | dragover (dt : TargetDesc) (e : Elem)
  | drop (dt : TargetDesc) (e : Elem)

/-- The hover events of a gesture: everything the platform can deliver
between drag-start and drop-or-end (enter, leave, over), on any target. -/
def Event.isHover : Event → Bool
  | .dragenter _ _ => true
  | .dragleave _ _ => true
  | .dragover _ _ => true
  | _ => false

/-- Dispatch one event to its listener. -/
def handle : Event → DndState → HOut
  | .dragstart ds e, st => dragstartHandler ds e st
  | .dragend ds e, st => dragendHandler ds e st
  | .dragenter dt e, st => dragenterHandler dt e st
  | .dragleave dt e, st => dragleaveHandler dt e st
  | .dragover dt e, st => dragoverHandler dt e st
  | .drop dt e, st => dropHandler dt e st

/-- The outcome of a whole event sequence: final state, all callback
invocations in order, and the exceptions that escaped to the dispatcher
(one handler throwing does not stop later events from being
delivered). -/
structure RunOut where
  st : DndState
  calls : List Call
  errs : List JSErr
deriving DecidableEq, Repr

/-- Deliver a list of events one after the other, single-threaded and
run-to-completion, as the platform event loop does. -/
def runFrom (st : DndState) : List Event → RunOut
  | [] => { st := st, calls := [], errs := [] }
  | ev :: evs =>
      let out := handle ev st
      let rest := runFrom out.st evs
      { st := rest.st,
        calls := out.calls ++ rest.calls,
        errs := out.err.toList ++ rest.errs }

/-- The module-load state: `current` with both fields null, no gesture
carrier written. -/
def initState : DndState := { reg := RegState.empty, carrier := Carrier.fresh }

/-- Run an event sequence from the module-load state. -/
def runEvents (evs : List Event) : RunOut := runFrom initState evs

/-- Call-trace counters used by the per-claim theorems. -/
def Call.isCancel : Call → Bool
  | .cancel _ => true
  | _ => false

def Call.isTargetDrop : Call → Bool
  | .targetDrop _ => true
  | _ => false

def Call.isSourceDrop : Call → Bool
  | .sourceDrop _ => true
  | _ => false

def countCancels (tr : List Call) : Nat := tr.countP (fun c => c.isCancel)

def countTargetDrops (tr : List Call) : Nat := tr.countP (fun c => c.isTargetDrop)

def countSourceDrops (tr : List Call) : Nat := tr.countP (fun c => c.isSourceDrop)

/-- The per-element observable construction effects: whether the
`draggable` attribute was set and which listeners have been attached. -/
structure ElemState where
  draggable : Bool
  listeners : List String
deriving DecidableEq, Repr

def ElemState.init : ElemState := { draggable := false, listeners := [] }

/-- The element world `createSource` mutates. -/
def World := Elem → ElemState

def initWorld : World := fun _ => ElemState.init

/-- `src.setAttribute('draggable', 'true')` on one element. -/
def setDraggable (w : World) (e : Elem) : World :=
  fun x => if x = e then { w x with draggable := true } else w x

/-- `src.addEventListener(name, ...)` for each given event name. -/
def addListeners (w : World) (e : Elem) (names : List String) : World :=
  fun x => if x = e then { w x with listeners := (w x).listeners ++ names } else w x

/-- `makeDraggable(ds)`: mark every wrapped element draggable. -/
def makeDraggable (ds : SourceDesc) (w : World) : World :=
  ds.sources.foldl setDraggable w

/-- `setupSourceEvents(ds)`: attach the `dragstart` and `dragend`
listeners to every wrapped element. -/
def setupSourceEvents (ds : SourceDesc) (w : World) : World :=
  ds.sources.foldl (fun acc s => addListeners acc s ["dragstart", "dragend"]) w

/-- The `options` object `createSource` receives. `effects` keeps the raw
JS shape (it is what `createEffectString` validates); `data` is either
absent, one item, or an array of items, exactly the shapes
`createDataArray` distinguishes; callbacks are presence flags. -/
structure SourceOptions where
  data : Option (DataItem ⊕ List DataItem)
  effects : JSVal
  view : Option ViewSpec
  onStart : Bool
  onCancel : Bool
  onDrop : Bool

/-- `createDataArray(data)` from part_000: `undefined` becomes `[]`, an
array passes through, anything else becomes a one-element array. -/
def createDataArray : Option (DataItem ⊕ List DataItem) → List DataItem
  | none => []
  | some (Sum.inl d) => [d]
  | some (Sum.inr l) => l

/-- `checkOptions(options)` — called first by `createSource`; its
definition (an empty body, src/js/dnd.js line 96) is a no-op
pass-through. -/
def checkOptions (options : SourceOptions) : Unit := ()

/-- A bare element or an array of elements, normalized by
`(src instanceof Array ? src : [src])`. -/
def toElemList : Elem ⊕ List Elem → List Elem
  | Sum.inl e => [e]
  | Sum.inr l => l

/-- `createSource(src, options)` from part_000: run `checkOptions`, build
the descriptor — evaluating `createEffectString(options.effects)` in the
middle of the object literal, so a throw there propagates out before the
literal finishes — then `makeDraggable`, then `setupSourceEvents`, and
return the descriptor. The returned world is the element world as mutated
up to the throw point, so on a throw it is the input world unchanged. -/
def createSource (src : Elem ⊕ List Elem) (options : SourceOptions) (w : World) :
    Except JSErr SourceDesc × World :=
  let _ := checkOptions options
  match createEffectString options.effects with
  | .error err => (Except.error err, w)
  | .ok eff =>
    let that : SourceDesc :=
      { sources := toElemList src,
        effects := eff,
        data := createDataArray options.data,
        view := options.view,
        onStart := options.onStart,
        onCancel := options.onCancel,
        onDrop := options.onDrop }
    let w1 := makeDraggable that w
    let w2 := setupSourceEvents that w1
    (Except.ok that, w2)

/-- The registry invariant of §3: both fields are null together or
populated together. -/
def RegState.balanced (r : RegState) : Prop := r.source.isSome = r.element.isSome

/- Concrete descriptors used by the closed theorems and witnesses below. -/

def srcDropAware : SourceDesc :=
  { sources := [1], effects := "copyMove",
    data := [DataItem.str "a", DataItem.pair "custom" "b"],
    view := none, onStart := false, onCancel := false, onDrop := true }

def tgtNoDropCb : TargetDesc :=
  { targets := [2], effect := "copy", onEnter := none, onLeave := false, onDrop := false }

def srcSingleText : SourceDesc :=
  { sources := [1], effects := "copy", data := [DataItem.str "hello"], view := none,
    onStart := false, onCancel := false, onDrop := true }

def srcSingleUrl : SourceDesc :=
  { sources := [1], effects := "copy", data := [DataItem.pair "url" "a"], view := none,
    onStart := false, onCancel := false, onDrop := true }

def tgtWithDropCb : TargetDesc :=
  { targets := [2], effect := "copy", onEnter := none, onLeave := false, onDrop := true }

def srcCancelable : SourceDesc :=
  { sources := [1], effects := "move", data := [], view := none,
    onStart := true, onCancel := true, onDrop := false }

def tgtEnterFree : TargetDesc :=
  { targets := [3], effect := "move", onEnter := none, onLeave := false, onDrop := false }

def tgtEnterCb : TargetDesc :=
  { targets := [3], effect := "move", onEnter := some (fun e => e == 4),
    onLeave := false, onDrop := false }

def optsBadEffects : SourceOptions :=
  { data := none, effects := JSVal.jnum 42, view := none,
    onStart := false, onCancel := false, onDrop := false }

def srcStartAware : SourceDesc :=
  { sources := [4], effects := "link", data := [], view := none,
    onStart := true, onCancel := false, onDrop := false }

/-- C1: the claim says every collection of effect names drawn from
move/copy/link is encoded by the normalization rule (for instance
`["move","copy"]` to `"copyMove"`). On the code, `createEffectString`
throws its `cannot create effect string` error for every array input: the
validation accepts only falsy values and strings, leaving the length-2,
length-3 and sort-and-fold branches of its own switch unreachable. The
second conjunct records what the claimed rule would have produced. -/
theorem c1_collection_input_rejected :
    createEffectString (JSVal.jarr ["move", "copy"]) = Except.error JSErr.invalidConfiguration
    ∧ specEncodeRule ["move", "copy"] = "copyMove" :=
  ⟨rfl, by decide⟩

/-- C6: the claim says the encoder fails exactly when the input is neither
absent, nor a string, nor a collection of strings. The first conjunct is
the claimed (and true) failure on `42`; the second shows the `only if`
direction is false on the code: a collection of strings also fails with
the same error. -/
theorem c6_error_not_only_for_bad_shapes :
    createEffectString (JSVal.jnum 42) = Except.error JSErr.invalidConfiguration
    ∧ createEffectString (JSVal.jarr ["move"]) = Except.error JSErr.invalidConfiguration :=
  ⟨rfl, rfl⟩

/-- C4: the claim says every drag-enter writes the configured effect into
the drop-effect field before `onEnter` is consulted. In part_000 the body
of `setTargetProperties` is empty, so the dragenter listener leaves the
whole carrier — in particular its drop-effect field — unchanged, for every
target, element and state. -/
theorem c4_dragenter_never_writes_drop_effect (dt : TargetDesc) (e : Elem) (st : DndState) :
    (dragenterHandler dt e st).st.carrier = st.carrier := by
  cases h : dt.onEnter <;> simp [dragenterHandler, setTargetProperties, h]

/-- C7: with no `onEnter` callback the dragenter listener always calls
`preventDefault` (signals acceptance); with a callback it does so exactly
when the callback returns true. -/
theorem c7_enter_acceptance (dt : TargetDesc) (e : Elem) (st : DndState) :
    (dt.onEnter = none → (dragenterHandler dt e st).prevented = true)
    ∧ (∀ f, dt.onEnter = some f →
        ((dragenterHandler dt e st).prevented = true ↔ f e = true)) := by
  refine ⟨fun h => ?_, fun f h => ?_⟩ <;> simp [dragenterHandler, h]

theorem c7_enter_acceptance_witness :
    (dragenterHandler tgtEnterFree 3 initState).prevented = true
    ∧ ((dragenterHandler tgtEnterCb 3 initState).prevented = true ↔ (3 == 4) = true) :=
  ⟨(c7_enter_acceptance tgtEnterFree 3 initState).1 rfl,
   (c7_enter_acceptance tgtEnterCb 3 initState).2 (fun e => e == 4) rfl⟩

/-- `runFrom` splits along an append of event lists: the second segment
starts from the state the first one reaches, and the calls concatenate. -/
theorem runFrom_append (l1 l2 : List Event) :
    ∀ st : DndState,
      (runFrom st (l1 ++ l2)).st = (runFrom (runFrom st l1).st l2).st
      ∧ (runFrom st (l1 ++ l2)).calls
          = (runFrom st l1).calls ++ (runFrom (runFrom st l1).st l2).calls := by
  induction l1 with
  | nil => intro st; simp [runFrom]
  | cons ev l1 ih =>
      intro st
      obtain ⟨ih1, ih2⟩ := ih (handle ev st).st
      simp [runFrom, ih1, ih2]

/-- A run of hover events touches neither the registry nor the
cancel/drop callbacks: enter and leave only record their own calls and
over records nothing. -/
theorem hover_run_effects (hs : List Event) :
    ∀ st : DndState, (∀ ev ∈ hs, ev.isHover = true) →
      (runFrom st hs).st.reg = st.reg
      ∧ countCancels (runFrom st hs).calls = 0
      ∧ countTargetDrops (runFrom st hs).calls = 0
      ∧ countSourceDrops (runFrom st hs).calls = 0 := by
  induction hs with
  | nil =>
      intro st _
      simp [runFrom, countCancels, countTargetDrops, countSourceDrops]
  | cons ev hs ih =>
      intro st hh
      have hev : ev.isHover = true := hh ev (List.mem_cons_self ev hs)
      obtain ⟨hr2, hc2, ht2, hs2⟩ :=
        ih (handle ev st).st (fun x hx => hh x (List.mem_cons_of_mem ev hx))
      have hstep : (handle ev st).st.reg = st.reg
          ∧ countCancels (handle ev st).calls = 0
          ∧ countTargetDrops (handle ev st).calls = 0
          ∧ countSourceDrops (handle ev st).calls = 0 := by
        cases ev with
        | dragenter dt e =>
            cases hE : dt.onEnter <;>
              simp [handle, dragenterHandler, hE, countCancels, countTargetDrops,
                    countSourceDrops, Call.isCancel, Call.isTargetDrop, Call.isSourceDrop]
        | dragleave dt e =>
            cases hL : dt.onLeave <;>
              simp [handle, dragleaveHandler, hL, countCancels, countTargetDrops,
                    countSourceDrops, Call.isCancel, Call.isTargetDrop, Call.isSourceDrop]
        | dragover dt e =>
            simp [handle, dragoverHandler, countCancels, countTargetDrops, countSourceDrops]
        | dragstart ds e => simp [Event.isHover] at hev
        | dragend ds e => simp [Event.isHover] at hev
        | drop dt e => simp [Event.isHover] at hev
      obtain ⟨hr1, hc1, ht1, hs1⟩ := hstep
      refine ⟨by simp [runFrom, hr2, hr1], ?_, ?_, ?_⟩
      · simp only [runFrom, countCancels, List.countP_append] at hc1 hc2 ⊢
        omega
      · simp only [runFrom, countTargetDrops, List.countP_append] at ht1 ht2 ⊢
        omega
      · simp only [runFrom, countSourceDrops, List.countP_append] at hs1 hs2 ⊢
        omega

/-- From any state whose registry is populated, a run of hover events
followed by a drag-end of a source with `onCancel` present fires exactly
one cancel, no drop callback, and empties the registry. -/
theorem hover_then_end (ds : SourceDesc) (et : Elem) (hovers : List Event)
    (hh : ∀ ev ∈ hovers, ev.isHover = true) (h : ds.onCancel = true) :
    ∀ st : DndState, st.reg.source.isSome = true →
      countCancels (runFrom st (hovers ++ [Event.dragend ds et])).calls = 1
      ∧ countTargetDrops (runFrom st (hovers ++ [Event.dragend ds et])).calls = 0
      ∧ countSourceDrops (runFrom st (hovers ++ [Event.dragend ds et])).calls = 0
      ∧ (runFrom st (hovers ++ [Event.dragend ds et])).st.reg = RegState.empty := by
  intro st hpop
  obtain ⟨hstA, hcallsA⟩ := runFrom_append hovers [Event.dragend ds et] st
  obtain ⟨hreg, hc, ht, hsd⟩ := hover_run_effects hovers st hh
  have hpop2 : (runFrom st hovers).st.reg.source.isSome = true := by
    rw [hreg]; exact hpop
  have hend : handle (Event.dragend ds et) (runFrom st hovers).st
      = { st := { (runFrom st hovers).st with reg := RegState.empty },
          calls := [Call.cancel et], prevented := false, err := none } := by
    simp [handle, dragendHandler, hpop2, h]
  refine ⟨?_, ?_, ?_, ?_⟩
  · rw [hcallsA]
    simp only [runFrom, hend, countCancels, List.countP_append, List.countP_cons,
               List.countP_nil, Call.isCancel, List.append_nil, if_true, if_false,
               Bool.false_eq_true] at hc ⊢
    omega
  · rw [hcallsA]
    simp only [runFrom, hend, countTargetDrops, List.countP_append, List.countP_cons,
               List.countP_nil, Call.isTargetDrop, List.append_nil, if_true, if_false,
               Bool.false_eq_true] at ht ⊢
    omega
  · rw [hcallsA]
    simp only [runFrom, hend, countSourceDrops, List.countP_append, List.countP_cons,
               List.countP_nil, Call.isSourceDrop, List.append_nil, if_true, if_false,
               Bool.false_eq_true] at hsd ⊢
    omega
  · rw [hstA]
    simp [runFrom, hend]

/-- C5: a gesture of drag-start, then any number of intervening hover
events (enter/leave/over, on any targets) and no drop, then the same
source's drag-end, invokes `onCancel` exactly once (when the client
attached one), invokes no drop callback at all, and leaves the registry
Idle. -/
theorem c5_cancel_gesture (ds : SourceDesc) (e et : Elem) (hovers : List Event)
    (hh : ∀ ev ∈ hovers, ev.isHover = true) (h : ds.onCancel = true) :
    countCancels (runEvents (Event.dragstart ds e ::
        (hovers ++ [Event.dragend ds et]))).calls = 1
    ∧ countTargetDrops (runEvents (Event.dragstart ds e ::
        (hovers ++ [Event.dragend ds et]))).calls = 0
    ∧ countSourceDrops (runEvents (Event.dragstart ds e ::
        (hovers ++ [Event.dragend ds et]))).calls = 0
    ∧ (runEvents (Event.dragstart ds e ::
        (hovers ++ [Event.dragend ds et]))).st.reg = RegState.empty := by
  obtain ⟨hc1, ht1, hs1, hr1⟩ :=
    hover_then_end ds et hovers hh h (handle (Event.dragstart ds e) initState).st rfl
  have hA0 : countCancels (handle (Event.dragstart ds e) initState).calls = 0 := by
    cases hs : ds.onStart <;>
      simp [handle, dragstartHandler, hs, countCancels, Call.isCancel]
  have hAt : countTargetDrops (handle (Event.dragstart ds e) initState).calls = 0 := by
    cases hs : ds.onStart <;>
      simp [handle, dragstartHandler, hs, countTargetDrops, Call.isTargetDrop]
  have hAs : countSourceDrops (handle (Event.dragstart ds e) initState).calls = 0 := by
    cases hs : ds.onStart <;>
      simp [handle, dragstartHandler, hs, countSourceDrops, Call.isSourceDrop]
  refine ⟨?_, ?_, ?_, ?_⟩
  · simp only [runEvents, runFrom, countCancels, List.countP_append] at hA0 hc1 ⊢
    omega
  · simp only [runEvents, runFrom, countTargetDrops, List.countP_append] at hAt ht1 ⊢
    omega
  · simp only [runEvents, runFrom, countSourceDrops, List.countP_append] at hAs hs1 ⊢
    omega
  · simp only [runEvents, runFrom]
    exact hr1

theorem c5_cancel_gesture_witness :
    (∀ ev ∈ [Event.dragenter tgtEnterFree 2, Event.dragover tgtEnterFree 2,
             Event.dragleave tgtEnterFree 2], ev.isHover = true)
    ∧ srcCancelable.onCancel = true
    ∧ (countCancels (runEvents (Event.dragstart srcCancelable 1 ::
          ([Event.dragenter tgtEnterFree 2, Event.dragover tgtEnterFree 2,
            Event.dragleave tgtEnterFree 2] ++ [Event.dragend srcCancelable 1]))).calls = 1
       ∧ countTargetDrops (runEvents (Event.dragstart srcCancelable 1 ::
          ([Event.dragenter tgtEnterFree 2, Event.dragover tgtEnterFree 2,
            Event.dragleave tgtEnterFree 2] ++ [Event.dragend srcCancelable 1]))).calls = 0
       ∧ countSourceDrops (runEvents (Event.dragstart srcCancelable 1 ::
          ([Event.dragenter tgtEnterFree 2, Event.dragover tgtEnterFree 2,
            Event.dragleave tgtEnterFree 2] ++ [Event.dragend srcCancelable 1]))).calls = 0
       ∧ (runEvents (Event.dragstart srcCancelable 1 ::
          ([Event.dragenter tgtEnterFree 2, Event.dragover tgtEnterFree 2,
            Event.dragleave tgtEnterFree 2] ++ [Event.dragend srcCancelable 1]))).st.reg
            = RegState.empty) :=
  ⟨by decide, rfl,
   c5_cancel_gesture srcCancelable 1 1
     [Event.dragenter tgtEnterFree 2, Event.dragover tgtEnterFree 2,
      Event.dragleave tgtEnterFree 2]
     (by decide) rfl⟩

/-- Every single listener preserves the registry invariant. -/
theorem handle_keeps_balanced (ev : Event) (st : DndState) (h : st.reg.balanced) :
    (handle ev st).st.reg.balanced := by
  cases ev with
  | dragstart ds e => simp [handle, dragstartHandler, RegState.balanced]
  | dragend ds e =>
      by_cases hs : st.reg.source.isSome
      · simp [handle, dragendHandler, hs, RegState.balanced, RegState.empty]
      · simpa [handle, dragendHandler, hs] using h
  | dragenter dt e =>
      cases hE : dt.onEnter <;> simpa [handle, dragenterHandler, hE] using h
  | dragleave dt e => simpa [handle, dragleaveHandler] using h
  | dragover dt e => simpa [handle, dragoverHandler] using h
  | drop dt e =>
      by_cases hd : dt.onDrop
      · cases hb : buildPayload st.carrier with
        | error err => simp [handle, dropHandler, hd, hb, h]
        | ok p =>
          cases hsrc : st.reg.source with
          | none => simp [handle, dropHandler, hd, hb, hsrc, h]
          | some src =>
              cases hsd : src.onDrop <;>
                simp [handle, dropHandler, hd, hb, hsrc, hsd,
                      RegState.balanced, RegState.empty]
      · simp [handle, dropHandler, hd, h]

/-- The invariant propagates along any event sequence. -/
theorem runFrom_keeps_balanced (evs : List Event) :
    ∀ st : DndState, st.reg.balanced → (runFrom st evs).st.reg.balanced := by
  induction evs with
  | nil => intro st h; simpa [runFrom] using h
  | cons ev evs ih =>
      intro st h
      simpa [runFrom] using ih _ (handle_keeps_balanced ev st h)

/-- C8: in every state reachable from module load by any sequence of
delivered events, `current.source` and `current.element` are null together
or populated together — no listener leaves the registry half-filled. -/
theorem c8_registry_invariant (evs : List Event) :
    (runEvents evs).st.reg.balanced :=
  runFrom_keeps_balanced evs initState rfl

/-- C2: the claim says a drag-start followed by a drop on a registered
target invokes the target's and then the source's drop callback once each
and leaves the registry Idle. Two failing modes on the code. First, the
whole drop listener body — including the call to the source's `onDrop` and
the registry clearing — sits inside `if (dt.onDrop)`, so with a target
that has no `onDrop` of its own nothing at all happens: the source's
callback is never invoked and the registry stays populated. Second, even
with both callbacks present, a carrier holding exactly one type makes the
payload construction throw (see `buildPayload`), so neither callback runs
and the registry again stays populated. -/
theorem c2_drop_without_target_callback :
    (countTargetDrops (runEvents [Event.dragstart srcDropAware 1,
        Event.drop tgtNoDropCb 2]).calls = 0
     ∧ countSourceDrops (runEvents [Event.dragstart srcDropAware 1,
        Event.drop tgtNoDropCb 2]).calls = 0
     ∧ (runEvents [Event.dragstart srcDropAware 1, Event.drop tgtNoDropCb 2]).st.reg
        = { source := some srcDropAware, element := some 1 })
    ∧ ((runEvents [Event.dragstart srcSingleUrl 1, Event.drop tgtWithDropCb 2]).calls = []
       ∧ (runEvents [Event.dragstart srcSingleUrl 1, Event.drop tgtWithDropCb 2]).st.reg
        = { source := some srcSingleUrl, element := some 1 }) := by
  decide

/-- C3: the claim says a drop with exactly one available type delivers the
bare string value as payload. On the code, the payload starts out as that
bare string and the `forEach` then writes a property onto it; under the
strict-mode directive of the module that write on a string primitive
throws a TypeError, so the drop listener aborts: no drop callback runs, no
payload is delivered, and the registry stays populated. -/
theorem c3_single_type_drop_throws :
    (runEvents [Event.dragstart srcSingleText 1, Event.drop tgtWithDropCb 2]).errs
        = [JSErr.typeError]
    ∧ (runEvents [Event.dragstart srcSingleText 1, Event.drop tgtWithDropCb 2]).calls = []
    ∧ (runEvents [Event.dragstart srcSingleText 1, Event.drop tgtWithDropCb 2]).st.reg
        = { source := some srcSingleText, element := some 1 } := by
  decide

/-- C9: when the effect encoder throws during `createSource`, construction
aborts before `makeDraggable` and `setupSourceEvents` run: the error
propagates to the caller and the element world is exactly the input world,
so no element was marked draggable and no listener was attached. -/
theorem c9_no_partial_registration (src : Elem ⊕ List Elem) (options : SourceOptions)
    (w : World) (err : JSErr)
    (h : createEffectString options.effects = Except.error err) :
    (createSource src options w).1 = Except.error err
    ∧ (createSource src options w).2 = w := by
  simp [createSource, h]

theorem c9_no_partial_registration_witness :
    createEffectString optsBadEffects.effects = Except.error JSErr.invalidConfiguration
    ∧ ((createSource (Sum.inl 1) optsBadEffects initWorld).1
          = Except.error JSErr.invalidConfiguration
       ∧ (createSource (Sum.inl 1) optsBadEffects initWorld).2 = initWorld) :=
  ⟨rfl, c9_no_partial_registration (Sum.inl 1) optsBadEffects initWorld
          JSErr.invalidConfiguration rfl⟩

/-- C10: any `onStart` invocation the dragstart listener makes happens
against an already populated registry — the recorded registry holds this
source and exactly the element passed to the callback. -/
theorem c10_start_callback_sees_registry (ds : SourceDesc) (e a : Elem) (st : DndState)
    (r : RegState) (h : Call.start a r ∈ (dragstartHandler ds e st).calls) :
    r.source = some ds ∧ r.element = some a := by
  cases hs : ds.onStart <;> simp [dragstartHandler, hs] at h
  obtain ⟨ha, hr⟩ := h
  subst ha
  subst hr
  exact ⟨rfl, rfl⟩

theorem c10_start_callback_sees_registry_witness :
    (Call.start 4 { source := some srcStartAware, element := some 4 }
        ∈ (dragstartHandler srcStartAware 4 initState).calls)
    ∧ ({ source := some srcStartAware, element := some 4 } : RegState).source
        = some srcStartAware
    ∧ ({ source := some srcStartAware, element := some 4 } : RegState).element = some 4 := by
  refine ⟨by decide, ?_⟩
  exact c10_start_callback_sees_registry srcStartAware 4 4 initState _ (by decide)

end Dnd
